import Mathlib

/-!
Shallow embedding of `src/main.cpp` (maaskola/symbolic), a small symbolic
expression engine: expression trees with numeric evaluation, symbolic
differentiation with respect to a named variable, and string rendering.

Modelling choices, kept faithful to the source:

* `ExpressionPtr` is `std::shared_ptr<Expression>`, which may be null; every
  child slot of a node holds such a pointer.  We model pointer values by the
  inductive `Expr`, whose constructor `Expr.null` is the null pointer and
  whose other constructors are the concrete `Expression` subclasses
  (`Numeric`, `Variable`, `UnaryOperation<Fnc>`, `BinaryOperation<Fnc>`).
  Nodes are immutable values, as in the source (all members are set in the
  constructor and every method is `const`).
* Calling a virtual method (`eval`, `deriv`, `to_string`) through a null
  pointer is undefined behavior in C++; the embedding makes this failure
  explicit as `Err.nullDeref`.  A thrown `std::runtime_error(msg)` is
  `Err.thrown msg`.  All three operations therefore land in `Except Err _`.
* The scalar type `double` is modelled by `ℚ`.  Every literal appearing in
  the claims is a small integer, exactly representable in both.  The four
  transcendental functions `exp`, `log`, `sin`, `cos` from `<cmath>` are
  template parameters of the evaluator (mirroring the `Fncs` functor
  templates of the source); no claim in scope depends on their values.
  IEEE-specific behavior (infinities, NaN) is outside this model.
* `std::to_string(double)` is specified by the C++ standard as
  `sprintf("%f")`: fixed-point notation with exactly six fractional digits,
  rounded to nearest (ties to even under the default rounding mode).
  `fixed6` below implements exactly that on `ℚ`; on the integral literal
  values used by the claims it is exact.
-/

namespace Symbolic

/-- Tags of the five `UnaryOperation<Fnc>` instantiations of the source:
`Neg`, `Exp`, `Log`, `Sin`, `Cos`. -/
inductive UnOp where
  | uneg
  | uexp
  | ulog
  | usin
  | ucos
deriving DecidableEq, Repr

/-- Tags of the four `BinaryOperation<Fnc>` instantiations of the source:
`Sum` (`std::plus`), `Difference` (`std::minus`), `Product`
(`std::multiplies`), `Division` (`std::divides`). -/
inductive BinOp where
  | badd
  | bsub
  | bmul
  | bdiv
deriving DecidableEq, Repr

/-- A value of type `ExpressionPtr = std::shared_ptr<Expression>`:
either the null pointer or a node of one of the four concrete classes.
Children are again pointers, hence may be null. -/
inductive Expr where
  | null
  | num (value : ℚ)
  | var (name : String)
  | unary (op : UnOp) (operand : Expr)
  | binary (op : BinOp) (fst snd : Expr)
deriving DecidableEq, Repr

/-- Failure modes of the three operations: a thrown
`std::runtime_error(msg)`, or the undefined behavior of dispatching a
virtual call through a null `ExpressionPtr`. -/
inductive Err where
  | thrown (msg : String)
  | nullDeref
deriving DecidableEq, Repr

/-! ## Construction API (the free factory functions of the source) -/

/-- `ExpressionPtr numeric(double x)` -/
def numeric (x : ℚ) : Expr := .num x

/-- `ExpressionPtr variable(const std::string &s)` (named `variable_`
because `variable` is a Lean keyword) -/
def variable_ (s : String) : Expr := .var s

/-- `ExpressionPtr neg(ExpressionPtr x)` -/
def neg (x : Expr) : Expr := .unary .uneg x

/-- `ExpressionPtr exp(ExpressionPtr x)` -/
def exp (x : Expr) : Expr := .unary .uexp x

/-- `ExpressionPtr log(ExpressionPtr x)` -/
def log (x : Expr) : Expr := .unary .ulog x

/-- `ExpressionPtr sin(ExpressionPtr x)` -/
def sin (x : Expr) : Expr := .unary .usin x

/-- `ExpressionPtr cos(ExpressionPtr x)` -/
def cos (x : Expr) : Expr := .unary .ucos x

/-- `ExpressionPtr sum(ExpressionPtr a, ExpressionPtr b)` -/
def sum (a b : Expr) : Expr := .binary .badd a b

/-- `ExpressionPtr difference(ExpressionPtr a, ExpressionPtr b)` -/
def difference (a b : Expr) : Expr := .binary .bsub a b

/-- `ExpressionPtr product(ExpressionPtr a, ExpressionPtr b)` -/
def product (a b : Expr) : Expr := .binary .bmul a b

/-- `ExpressionPtr division(ExpressionPtr a, ExpressionPtr b)` -/
def division (a b : Expr) : Expr := .binary .bdiv a b

/-! ## Evaluator -/

/-- The four `<cmath>` functions `exp`, `log`, `sin`, `cos` used by the
`Fncs::Exp`, `Fncs::Log`, `Fncs::Sin`, `Fncs::Cos` functors.  The
evaluator is parametric in them, exactly as `UnaryOperation<Fnc>` is a
template in the source; no claim in scope depends on their values. -/
structure TransFns where
  fexp : ℚ → ℚ
  flog : ℚ → ℚ
  fsin : ℚ → ℚ
  fcos : ℚ → ℚ

/-- Scalar function of a unary tag.  `Fncs::Neg` is `-x`; the others come
from the `TransFns` pack. -/
def unFn (F : TransFns) : UnOp → ℚ → ℚ
  | .uneg => fun x => -x
  | .uexp => F.fexp
  | .ulog => F.flog
  | .usin => F.fsin
  | .ucos => F.fcos

/-- Scalar function of a binary tag (`std::plus`, `std::minus`,
`std::multiplies`, `std::divides` on `double`, modelled on `ℚ`). -/
def binFn : BinOp → ℚ → ℚ → ℚ
  | .badd => fun x y => x + y
  | .bsub => fun x y => x - y
  | .bmul => fun x y => x * y
  | .bdiv => fun x y => x / y

/-- `double Expression::eval() const`, dispatched through an
`ExpressionPtr`.
* null pointer: undefined behavior (`Err.nullDeref`);
* `Numeric::eval` returns the stored value;
* `Variable::eval` throws
  `std::runtime_error("Error trying to evaluate a variable.")`;
* `UnaryOperation::eval` returns `Fnc()(operand->eval())`;
* `BinaryOperation::eval` returns
  `Fnc()(operands.first->eval(), operands.second->eval())`. -/
def eval (F : TransFns) : Expr → Except Err ℚ
  | .null => .error .nullDeref
  | .num v => .ok v
  | .var _ => .error (.thrown "Error trying to evaluate a variable.")
  | .unary op c => do
      let x ← eval F c
      pure (unFn F op x)
  | .binary op a b => do
      let x ← eval F a
      let y ← eval F b
      pure (binFn op x y)

/-! ## Differentiator -/

/-- `ExpressionPtr Expression::deriv(const std::string &s) const`,
dispatched through an `ExpressionPtr`.
* null pointer: undefined behavior (`Err.nullDeref`);
* `Numeric::deriv` is `return 0;` — the integer literal `0` converts to a
  NULL `shared_ptr`, so the result is the null pointer, not `numeric(0)`;
* `Variable::deriv` returns `numeric(1)` if `s == variable` else
  `numeric(0)`;
* `Neg::deriv` returns `neg(operand->deriv(s))`;
* `Exp::deriv` returns `sum(exp(operand), operand->deriv(s))`;
* `Log::deriv` returns `division(operand->deriv(s), operand)`;
* `Sin::deriv` returns `product(operand->deriv(s), cos(operand))`;
* `Cos::deriv` returns `product(operand->deriv(s), neg(sin(operand)))`;
* `BinaryOperation::deriv` throws `std::runtime_error("bar")`. -/
def deriv : Expr → String → Except Err Expr
  | .null, _ => .error .nullDeref
  | .num _, _ => .ok .null
  | .var v, s => .ok (if s = v then numeric 1 else numeric 0)
  | .unary .uneg c, s => do
      let d ← deriv c s
      pure (neg d)
  | .unary .uexp c, s => do
      let d ← deriv c s
      pure (sum (exp c) d)
  | .unary .ulog c, s => do
      let d ← deriv c s
      pure (division d c)
  | .unary .usin c, s => do
      let d ← deriv c s
      pure (product d (cos c))
  | .unary .ucos c, s => do
      let d ← deriv c s
      pure (product d (neg (sin c)))
  | .binary _ _ _, _ => .error (.thrown "bar")

/-! ## Printer -/

/-- Pad a digit string with leading zeros up to length `k`. -/
def padLeft0 (k : Nat) (s : String) : String :=
  if s.length < k then String.mk (List.replicate (k - s.length) '0') ++ s
  else s

/-- Round `a / d` (with `d ≠ 0`) to the nearest natural number, ties to
even — the default IEEE rounding used by `printf`-family formatting. -/
def roundHalfEven (a d : Nat) : Nat :=
  let q := a / d
  let r := a % d
  if 2 * r < d then q
  else if 2 * r > d then q + 1
  else if q % 2 = 0 then q
  else q + 1

/-- Modelled from the C++ standard library: `std::to_string(double)` is
defined as `sprintf("%f")`, i.e. fixed-point notation with exactly six
fractional digits.  On `ℚ` this is the sign, then the rounded scaled
magnitude split into integral part and six zero-padded fractional
digits.  Exact on the integral values the claims use. -/
def fixed6 (x : ℚ) : String :=
  let sgn := if x < 0 then "-" else ""
  let scaled := roundHalfEven (x.num.natAbs * 1000000) x.den
  sgn ++ toString (scaled / 1000000) ++ "." ++
    padLeft0 6 (toString (scaled % 1000000))

/-- `std::string Expression::to_string() const`, dispatched through an
`ExpressionPtr`.
* null pointer: undefined behavior (`Err.nullDeref`);
* `Numeric::to_string` returns `std::to_string(value)`;
* `Variable::to_string` returns the name verbatim;
* `Neg::to_string` returns `"-" + operand->to_string()` (no parens);
* `Exp`/`Log`/`Sin`/`Cos` render as `"fn(" + operand->to_string() + ")"`;
* every `BinaryOperation` renders as
  `"(" + first->to_string() + " op " + second->to_string() + ")"`. -/
def to_string : Expr → Except Err String
  | .null => .error .nullDeref
  | .num v => .ok (fixed6 v)
  | .var v => .ok v
  | .unary .uneg c => do
      let s ← to_string c
      pure ("-" ++ s)
  | .unary .uexp c => do
      let s ← to_string c
      pure ("exp(" ++ s ++ ")")
  | .unary .ulog c => do
      let s ← to_string c
      pure ("log(" ++ s ++ ")")
  | .unary .usin c => do
      let s ← to_string c
      pure ("sin(" ++ s ++ ")")
  | .unary .ucos c => do
      let s ← to_string c
      pure ("cos(" ++ s ++ ")")
  | .binary .badd a b => do
      let sa ← to_string a
      let sb ← to_string b
      pure ("(" ++ sa ++ " + " ++ sb ++ ")")
  | .binary .bsub a b => do
      let sa ← to_string a
      let sb ← to_string b
      pure ("(" ++ sa ++ " - " ++ sb ++ ")")
  | .binary .bmul a b => do
      let sa ← to_string a
      let sb ← to_string b
      pure ("(" ++ sa ++ " * " ++ sb ++ ")")
  | .binary .bdiv a b => do
      let sa ← to_string a
      let sb ← to_string b
      pure ("(" ++ sa ++ " / " ++ sb ++ ")")

instance {ε α : Type} [DecidableEq ε] [DecidableEq α] :
    DecidableEq (Except ε α)
  | .ok a, .ok b =>
      if h : a = b then .isTrue (by rw [h]) else .isFalse (by simp [h])
  | .ok _, .error _ => .isFalse (by simp)
  | .error _, .ok _ => .isFalse (by simp)
  | .error e, .error f =>
      if h : e = f then .isTrue (by rw [h]) else .isFalse (by simp [h])

/-- An arbitrary concrete `TransFns` pack, used only to instantiate
theorems at concrete inputs; the claims never depend on the values of the
transcendental functions. -/
def trivFns : TransFns := ⟨id, id, id, id⟩

/-- Helper: binding a successful `Except` computation applies the
continuation. -/
theorem ok_bind {ε α β : Type} (a : α) (f : α → Except ε β) :
    (Except.ok a : Except ε α) >>= f = f a := rfl

/-! ## Claim theorems -/

/-- Claim C1 (code bug, behavior of the code at the failing input): for
every literal value `c` and variable name `x`, `differentiate(literal(c), x)`
does not return `literal(0)` — `Numeric::deriv` executes `return 0;`, which
converts the integer literal `0` to a null `ExpressionPtr`, so the result is
the null pointer, not the expression `literal(0)` the spec states. -/
theorem numeric_deriv_returns_null (c : ℚ) (x : String) :
    deriv (numeric c) x = .ok .null ∧ .null ≠ numeric 0 := by
  exact ⟨rfl, by simp [numeric]⟩

/-- Claim C2 (confirmed): whenever `differentiate(u, x)` yields a result
`u'` (possibly the null pointer, when `u` is a literal),
`differentiate(exp(u), x)` returns `add(exp(u), u')` — the source's
`Exp::deriv` builds `sum(exp(operand), operand->deriv(s))`, the literal
transcription the spec describes, not the calculus-correct product. -/
theorem exp_deriv_rule (u : Expr) (x : String) (u' : Expr)
    (h : deriv u x = .ok u') :
    deriv (exp u) x = .ok (sum (exp u) u') := by
  have hu : deriv (exp u) x =
      Except.bind (deriv u x) fun d => Except.ok (sum (exp u) d) := rfl
  rw [hu, h]
  rfl

/-- Witness for C2 at `u = variable("x")`. -/
theorem exp_deriv_rule_witness :
    deriv (variable_ "x") "x" = .ok (numeric 1) ∧
    deriv (exp (variable_ "x")) "x" =
      .ok (sum (exp (variable_ "x")) (numeric 1)) :=
  ⟨by decide, exp_deriv_rule (variable_ "x") "x" (numeric 1) (by decide)⟩

/-- Claim C3, amended (corrected): for every BinaryOp node and every
variable name, `differentiate` fails unconditionally, but the failure
carries only the fixed message string "bar" — it does not carry the
operator tag of the node. -/
theorem binary_deriv_throws_bar (op : BinOp) (a b : Expr) (s : String) :
    deriv (.binary op a b) s = .error (.thrown "bar") := rfl

/-- Counterexample to Claim C3 as stated: no function whatsoever can read
the operator tag back off the failure, because nodes with different tags
(`add` at input `add(literal(1), literal(2))` and `multiply` at input
`multiply(literal(1), literal(2))`) fail with the identical error value. -/
theorem binary_deriv_error_lacks_op_tag :
    ¬ ∃ tagOf : Err → BinOp,
      ∀ (op : BinOp) (a b : Expr) (s : String) (e : Err),
        deriv (.binary op a b) s = .error e → tagOf e = op := by
  rintro ⟨tagOf, h⟩
  have h1 : tagOf (.thrown "bar") = .badd :=
    h .badd (numeric 1) (numeric 2) "x" (.thrown "bar") rfl
  have h2 : tagOf (.thrown "bar") = .bmul :=
    h .bmul (numeric 1) (numeric 2) "x" (.thrown "bar") rfl
  rw [h1] at h2
  exact absurd h2 (by decide)

/-- Claim C4, amended (corrected): for every variable name `v` (and any
interpretation of the transcendental functions), `evaluate(variable(v))`
fails by throwing, but the failure carries only the fixed message
"Error trying to evaluate a variable." — it does not carry the variable's
name `v`. -/
theorem variable_eval_throws_fixed_message (F : TransFns) (v : String) :
    eval F (variable_ v) =
      .error (.thrown "Error trying to evaluate a variable.") := rfl

/-- Counterexample to Claim C4 as stated: no function whatsoever can read
the variable's name back off the failure, because `variable("a")` and
`variable("b")` fail with the identical error value. -/
theorem variable_eval_error_lacks_name :
    ¬ ∃ nameOf : Err → String,
      ∀ (F : TransFns) (v : String) (e : Err),
        eval F (variable_ v) = .error e → nameOf e = v := by
  rintro ⟨nameOf, h⟩
  have h1 : nameOf (.thrown "Error trying to evaluate a variable.") = "a" :=
    h trivFns "a" _ rfl
  have h2 : nameOf (.thrown "Error trying to evaluate a variable.") = "b" :=
    h trivFns "b" _ rfl
  rw [h1] at h2
  exact absurd h2 (by decide)

/-- Claim C5 (code bug, behavior of the code at the failing input): the
round trip is NOT crash-free on well-formed unary-only trees.  Already at
depth 1, differentiating `sin(literal(1))` yields
`multiply(null, cos(literal(1)))` (because `Numeric::deriv` returns a null
pointer), and printing that result dereferences the null pointer —
undefined behavior, not a clean result. -/
theorem unary_roundtrip_crashes_on_literal_leaf :
    deriv (sin (numeric 1)) "x" = .ok (product .null (cos (numeric 1))) ∧
    (deriv (sin (numeric 1)) "x").bind to_string = .error .nullDeref :=
  ⟨rfl, rfl⟩

/-- Claim C6 (confirmed): `differentiate(variable(v), v)` returns
`literal(1)`, and `differentiate(variable(v), w)` returns `literal(0)`
when `v ≠ w` (`Variable::deriv` compares `s == variable`). -/
theorem variable_deriv_rule (v w : String) :
    deriv (variable_ v) v = .ok (numeric 1) ∧
    (v ≠ w → deriv (variable_ v) w = .ok (numeric 0)) := by
  constructor
  · simp [variable_, deriv]
  · intro h
    simp [variable_, deriv, Ne.symm h]

/-- Witness for C6 at `v = "x"`, `w = "y"`. -/
theorem variable_deriv_rule_witness :
    ("x" : String) ≠ "y" ∧
    deriv (variable_ "x") "x" = .ok (numeric 1) ∧
    deriv (variable_ "x") "y" = .ok (numeric 0) :=
  ⟨by decide, (variable_deriv_rule "x" "y").1,
   (variable_deriv_rule "x" "y").2 (by decide)⟩

/-- Claim C8 (confirmed): every binary node prints fully parenthesized as
`"(" ++ left ++ " op " ++ right ++ ")"`, the unary functions print in
prefixed-function style `"fn(" ++ inner ++ ")"`, negate prints as
`"-" ++ inner` with no parentheses, and concretely
`to_string(add(literal(2), literal(3))) = "(2.000000 + 3.000000)"`. -/
theorem to_string_format :
    (∀ (a b : Expr) (sa sb : String),
      to_string a = .ok sa → to_string b = .ok sb →
      to_string (sum a b) = .ok ("(" ++ sa ++ " + " ++ sb ++ ")") ∧
      to_string (difference a b) = .ok ("(" ++ sa ++ " - " ++ sb ++ ")") ∧
      to_string (product a b) = .ok ("(" ++ sa ++ " * " ++ sb ++ ")") ∧
      to_string (division a b) = .ok ("(" ++ sa ++ " / " ++ sb ++ ")")) ∧
    (∀ (c : Expr) (sc : String), to_string c = .ok sc →
      to_string (exp c) = .ok ("exp(" ++ sc ++ ")") ∧
      to_string (log c) = .ok ("log(" ++ sc ++ ")") ∧
      to_string (sin c) = .ok ("sin(" ++ sc ++ ")") ∧
      to_string (cos c) = .ok ("cos(" ++ sc ++ ")") ∧
      to_string (neg c) = .ok ("-" ++ sc)) ∧
    to_string (sum (numeric 2) (numeric 3)) = .ok "(2.000000 + 3.000000)" := by
  refine ⟨fun a b sa sb ha hb => ?_, fun c sc hc => ?_, by decide⟩
  · exact ⟨by simp [sum, to_string, ha, hb, ok_bind],
      by simp [difference, to_string, ha, hb, ok_bind],
      by simp [product, to_string, ha, hb, ok_bind],
      by simp [division, to_string, ha, hb, ok_bind]⟩
  · exact ⟨by simp [exp, to_string, hc, ok_bind],
      by simp [log, to_string, hc, ok_bind],
      by simp [sin, to_string, hc, ok_bind],
      by simp [cos, to_string, hc, ok_bind],
      by simp [neg, to_string, hc, ok_bind]⟩

/-- Witness for C8 at concrete subtrees. -/
theorem to_string_format_witness :
    to_string (sum (numeric 2) (numeric 3)) = .ok "(2.000000 + 3.000000)" ∧
    to_string (neg (variable_ "x")) = .ok "-x" ∧
    to_string (sin (variable_ "x")) = .ok "sin(x)" :=
  ⟨to_string_format.2.2,
   (to_string_format.2.1 (variable_ "x") "x" (by decide)).2.2.2.2,
   (to_string_format.2.1 (variable_ "x") "x" (by decide)).2.2.1⟩

/-- Claim C10 (confirmed): `differentiate(literal(c), x)` returns the null
expression reference, and every subsequent operation on that result —
`evaluate`, `differentiate`, or `to_text` — dereferences the null pointer
(undefined behavior, modelled as `Err.nullDeref`).  In particular
differentiating `sin(literal(c))` embeds the null pointer in the result
tree (`multiply(null, cos(literal(c)))`), whose printing then crashes. -/
theorem numeric_deriv_null_propagates (c : ℚ) (x : String) :
    deriv (numeric c) x = .ok .null ∧
    (∀ F : TransFns, eval F .null = .error .nullDeref) ∧
    deriv .null x = .error .nullDeref ∧
    to_string .null = .error .nullDeref ∧
    deriv (sin (numeric c)) x = .ok (product .null (cos (numeric c))) ∧
    (deriv (sin (numeric c)) x).bind to_string = .error .nullDeref :=
  ⟨rfl, fun _ => rfl, rfl, rfl, rfl, rfl⟩

end Symbolic
